import Mathlib

/-
Shallow embedding of the fibsem repository excerpt:
  src/fibsem/ui/FibsemMovementUI.py   (movement dialog controller)
  src/tests/test_structures.py        (settings record serialization tests)
  src/tests/test_image.py             (FibsemImage save and load tests)

Numeric modelling: Python floats are modelled as exact rationals.  The
constant np.pi is the IEEE-754 double nearest to pi, which is itself an
exact rational (884279719003555 / 2 ^ 48); float arithmetic is idealized
as exact rational arithmetic.

The settings records and the image container live in fibsem/structures.py
and fibsem/fibsemImage.py, which are not part of the excerpt; those
definitions are modelled from the spec (sections 3, 4.1, 4.2 and 8 of
spec.md) and from the assertions of the two test files, and each such
definition is marked Modelled from the spec.
-/

/-- The value of np.pi as an exact rational: the IEEE-754 double closest
to pi equals 884279719003555 / 2 ^ 48. -/
def np_pi : ℚ := 884279719003555 / 281474976710656

/-- Embedding of np.deg2rad: degrees to radians. -/
def deg2rad (d : ℚ) : ℚ := d * (np_pi / 180)

/-- Embedding of np.rad2deg: radians to degrees. -/
def rad2deg (r : ℚ) : ℚ := r * (180 / np_pi)

theorem np_pi_ne_zero : np_pi ≠ 0 := by norm_num [np_pi]

theorem deg2rad_rad2deg (r : ℚ) : deg2rad (rad2deg r) = r := by
  unfold deg2rad rad2deg
  have h := np_pi_ne_zero
  field_simp

/-- Embedding of fibsem.structures.BeamType (imported and used by
FibsemMovementUI.py): the two imaging beams. -/
inductive BeamType
  | ELECTRON
  | ION
deriving DecidableEq, Repr

/-- Serialization of a BeamType as its name string (enum-by-name,
spec section 4.1). -/
def BeamType.toName : BeamType → String
  | .ELECTRON => "ELECTRON"
  | .ION => "ION"

/-- Modelled from the spec: enum deserialization via name lookup;
an unknown name fails with a LookupError-kind error (spec section 4.1,
fibsem/structures.py is not in the excerpt). -/
def BeamType.fromName : String → Except String BeamType
  | "ELECTRON" => Except.ok BeamType.ELECTRON
  | "ION" => Except.ok BeamType.ION
  | s => Except.error ("KeyError: " ++ s)

theorem fromName_toName (b : BeamType) : BeamType.fromName b.toName = Except.ok b := by
  cases b <;> rfl

/-- Modelled from the spec: GammaSettings record (spec section 3;
fibsem/structures.py is not in the excerpt). -/
structure GammaSettings where
  enabled : Bool
  min_gamma : ℚ
  max_gamma : ℚ
  scale_factor : ℚ
  threshold : ℤ
deriving DecidableEq, Repr

/-- Serialized mapping shape of GammaSettings. -/
structure GammaSettingsDict where
  enabled : Bool
  min_gamma : ℚ
  max_gamma : ℚ
  scale_factor : ℚ
  threshold : ℤ
deriving DecidableEq, Repr

/-- Modelled from the spec: GammaSettings.__to_dict__, numeric fields pass
through unchanged (spec section 4.1). -/
def GammaSettings.to_dict (g : GammaSettings) : GammaSettingsDict :=
  ⟨g.enabled, g.min_gamma, g.max_gamma, g.scale_factor, g.threshold⟩

/-- Modelled from the spec: GammaSettings.__from_dict__ (spec section 4.1
and test_gamma_settings_from_dict). -/
def GammaSettings.from_dict (d : GammaSettingsDict) : GammaSettings :=
  ⟨d.enabled, d.min_gamma, d.max_gamma, d.scale_factor, d.threshold⟩

/-- Modelled from the spec: BeamSettings record (spec section 3). -/
structure BeamSettings where
  beam_type : BeamType
  working_distance : ℚ
  beam_current : ℚ
  hfw : ℚ
  resolution : String
  dwell_time : ℚ
  stigmation : ℚ
deriving DecidableEq, Repr

/-- Serialized mapping shape of BeamSettings: the beam type is its name
string. -/
structure BeamSettingsDict where
  beam_type : String
  working_distance : ℚ
  beam_current : ℚ
  hfw : ℚ
  resolution : String
  dwell_time : ℚ
  stigmation : ℚ
deriving DecidableEq, Repr

/-- Modelled from the spec: BeamSettings.__to_dict__
(test_beam_settings_to_dict). -/
def BeamSettings.to_dict (b : BeamSettings) : BeamSettingsDict :=
  ⟨b.beam_type.toName, b.working_distance, b.beam_current, b.hfw,
   b.resolution, b.dwell_time, b.stigmation⟩

/-- Modelled from the spec: BeamSettings.__from_dict__
(test_beam_settings_from_dict); an unknown beam name propagates the
lookup error. -/
def BeamSettings.from_dict (d : BeamSettingsDict) : Except String BeamSettings :=
  match BeamType.fromName d.beam_type with
  | Except.error e => Except.error e
  | Except.ok bt =>
      Except.ok ⟨bt, d.working_distance, d.beam_current, d.hfw,
                 d.resolution, d.dwell_time, d.stigmation⟩

/-- Modelled from the spec: StagePosition record (spec section 3). -/
structure StagePosition where
  x : ℚ
  y : ℚ
  z : ℚ
  r : ℚ
  t : ℚ
  coordinate_system : String
deriving DecidableEq, Repr

/-- Serialized mapping shape of StagePosition. -/
structure StagePositionDict where
  x : ℚ
  y : ℚ
  z : ℚ
  r : ℚ
  t : ℚ
  coordinate_system : String
deriving DecidableEq, Repr

/-- Modelled from the spec: StagePosition serialization, fields pass
through unchanged (test_microscope_state_to_dict). -/
def StagePosition.to_dict (p : StagePosition) : StagePositionDict :=
  ⟨p.x, p.y, p.z, p.r, p.t, p.coordinate_system⟩

/-- Modelled from the spec: StagePosition deserialization
(test_microscope_state_from_dict). -/
def StagePosition.from_dict (d : StagePositionDict) : StagePosition :=
  ⟨d.x, d.y, d.z, d.r, d.t, d.coordinate_system⟩

/-- Modelled from the spec: MicroscopeState record (spec section 3). -/
structure MicroscopeState where
  timestamp : ℚ
  absolute_position : StagePosition
  eb_settings : BeamSettings
  ib_settings : BeamSettings
deriving DecidableEq, Repr

/-- Serialized mapping shape of MicroscopeState. -/
structure MicroscopeStateDict where
  timestamp : ℚ
  absolute_position : StagePositionDict
  eb_settings : BeamSettingsDict
  ib_settings : BeamSettingsDict
deriving DecidableEq, Repr

/-- Modelled from the spec: MicroscopeState.__to_dict__ with nested records
serialized as nested mappings (test_microscope_state_to_dict). -/
def MicroscopeState.to_dict (s : MicroscopeState) : MicroscopeStateDict :=
  ⟨s.timestamp, s.absolute_position.to_dict, s.eb_settings.to_dict,
   s.ib_settings.to_dict⟩

/-- Modelled from the spec: MicroscopeState.__from_dict__
(test_microscope_state_from_dict). -/
def MicroscopeState.from_dict (d : MicroscopeStateDict) : Except String MicroscopeState :=
  match BeamSettings.from_dict d.eb_settings with
  | Except.error e => Except.error e
  | Except.ok eb =>
      match BeamSettings.from_dict d.ib_settings with
      | Except.error e => Except.error e
      | Except.ok ib =>
          Except.ok ⟨d.timestamp, StagePosition.from_dict d.absolute_position, eb, ib⟩

/-- Modelled from the spec: FibsemRectangle record, normalized reduced
area of interest (spec section 3). -/
structure FibsemRectangle where
  left : ℚ
  top : ℚ
  width : ℚ
  height : ℚ
deriving DecidableEq, Repr

/-- Serialized mapping shape of FibsemRectangle. -/
structure FibsemRectangleDict where
  left : ℚ
  top : ℚ
  width : ℚ
  height : ℚ
deriving DecidableEq, Repr

/-- Modelled from the spec: FibsemRectangle serialization. -/
def FibsemRectangle.to_dict (r : FibsemRectangle) : FibsemRectangleDict :=
  ⟨r.left, r.top, r.width, r.height⟩

/-- Modelled from the spec: FibsemRectangle deserialization. -/
def FibsemRectangle.from_dict (d : FibsemRectangleDict) : FibsemRectangle :=
  ⟨d.left, d.top, d.width, d.height⟩

/-- Modelled from the spec: ImageSettings record (spec section 3). -/
structure ImageSettings where
  resolution : String
  dwell_time : ℚ
  hfw : ℚ
  autocontrast : Bool
  beam_type : BeamType
  gamma : GammaSettings
  save : Bool
  save_path : Option String
  label : String
  reduced_area : Option FibsemRectangle
deriving DecidableEq, Repr

/-- Serialized mapping shape of ImageSettings. -/
structure ImageSettingsDict where
  resolution : String
  dwell_time : ℚ
  hfw : ℚ
  autocontrast : Bool
  beam_type : String
  gamma : GammaSettingsDict
  save : Bool
  save_path : Option String
  label : String
  reduced_area : Option FibsemRectangleDict
deriving DecidableEq, Repr

/-- Modelled from the spec: ImageSettings.__to_dict__ with the nested
gamma record serialized as a nested mapping (spec section 4.1). -/
def ImageSettings.to_dict (i : ImageSettings) : ImageSettingsDict :=
  ⟨i.resolution, i.dwell_time, i.hfw, i.autocontrast, i.beam_type.toName,
   i.gamma.to_dict, i.save, i.save_path, i.label,
   i.reduced_area.map FibsemRectangle.to_dict⟩

/-- Modelled from the spec: ImageSettings.__from_dict__
(test_image_settings_from_dict). -/
def ImageSettings.from_dict (d : ImageSettingsDict) : Except String ImageSettings :=
  match BeamType.fromName d.beam_type with
  | Except.error e => Except.error e
  | Except.ok bt =>
      Except.ok ⟨d.resolution, d.dwell_time, d.hfw, d.autocontrast, bt,
                 GammaSettings.from_dict d.gamma, d.save, d.save_path, d.label,
                 d.reduced_area.map FibsemRectangle.from_dict⟩

/-- Modelled from the spec: MillingSettings record; rotation is held in
radians in memory (spec sections 3 and 4.1). -/
structure MillingSettings where
  width : ℚ
  height : ℚ
  depth : ℚ
  rotation : ℚ
  centre_x : ℚ
  centre_y : ℚ
  milling_current : ℚ
  scan_direction : String
  cleaning_cross_section : Bool
deriving DecidableEq, Repr

/-- Serialized mapping shape of MillingSettings: rotation on the wire is
in degrees. -/
structure MillingSettingsDict where
  width : ℚ
  height : ℚ
  depth : ℚ
  rotation : ℚ
  centre_x : ℚ
  centre_y : ℚ
  milling_current : ℚ
  scan_direction : String
  cleaning_cross_section : Bool
deriving DecidableEq, Repr

/-- Modelled from the spec: MillingSettings.__to_dict__; the rotation
entry is the in-memory radians expressed in degrees
(test_milling_settings_to_dict asserts rotation == deg2rad of the dict
entry). -/
def MillingSettings.to_dict (m : MillingSettings) : MillingSettingsDict :=
  ⟨m.width, m.height, m.depth, rad2deg m.rotation, m.centre_x, m.centre_y,
   m.milling_current, m.scan_direction, m.cleaning_cross_section⟩

/-- Modelled from the spec: MillingSettings.__from_dict__; the stored
rotation is deg2rad of the mapping entry
(test_milling_settings_from_dict). -/
def MillingSettings.from_dict (d : MillingSettingsDict) : MillingSettings :=
  ⟨d.width, d.height, d.depth, deg2rad d.rotation, d.centre_x, d.centre_y,
   d.milling_current, d.scan_direction, d.cleaning_cross_section⟩

theorem beam_settings_from_to (b : BeamSettings) :
    BeamSettings.from_dict b.to_dict = Except.ok b := by
  cases b with
  | mk bt wd bc hfw res dt st => cases bt <;> rfl

theorem microscope_state_from_to (s : MicroscopeState) :
    MicroscopeState.from_dict s.to_dict = Except.ok s := by
  cases s with
  | mk ts pos eb ib =>
      cases eb with
      | mk ebt a1 a2 a3 a4 a5 a6 =>
          cases ib with
          | mk ibt b1 b2 b3 b4 b5 b6 =>
              cases pos
              cases ebt <;> cases ibt <;> rfl

theorem image_settings_from_to (i : ImageSettings) :
    ImageSettings.from_dict i.to_dict = Except.ok i := by
  cases i with
  | mk res dt hfw ac bt g sv sp lb ra =>
      cases g
      cases bt <;> cases ra <;> rfl

theorem milling_settings_from_to (m : MillingSettings) :
    MillingSettings.from_dict m.to_dict = m := by
  cases m with
  | mk w h d rot cx cy mc sd cc =>
      show MillingSettings.mk _ _ _ (deg2rad (rad2deg rot)) _ _ _ _ _ = _
      rw [deg2rad_rad2deg]
      rfl

/-- Modelled from the spec: Point record, an x and y offset
(spec section 3). -/
structure Point where
  x : ℚ
  y : ℚ
deriving DecidableEq, Repr

/-- Serialized mapping shape of Point. -/
structure PointDict where
  x : ℚ
  y : ℚ
deriving DecidableEq, Repr

/-- Modelled from the spec: Point serialization. -/
def Point.to_dict (p : Point) : PointDict := ⟨p.x, p.y⟩

/-- Modelled from the spec: Point deserialization. -/
def Point.from_dict (d : PointDict) : Point := ⟨d.x, d.y⟩

/-- Modelled from the spec: FibsemImageMetadata record
(spec section 3 and the metadata_fixture of test_image.py). -/
structure FibsemImageMetadata where
  image_settings : ImageSettings
  version : String
  pixel_size : Point
  microscope_state : MicroscopeState
deriving DecidableEq, Repr

/-- Serialized mapping shape of FibsemImageMetadata. -/
structure FibsemImageMetadataDict where
  image_settings : ImageSettingsDict
  version : String
  pixel_size : PointDict
  microscope_state : MicroscopeStateDict
deriving DecidableEq, Repr

/-- Modelled from the spec: FibsemImageMetadata.__to_dict__ with nested
records serialized as nested mappings (spec section 4.2). -/
def FibsemImageMetadata.to_dict (m : FibsemImageMetadata) : FibsemImageMetadataDict :=
  ⟨m.image_settings.to_dict, m.version, m.pixel_size.to_dict,
   m.microscope_state.to_dict⟩

/-- Modelled from the spec: FibsemImageMetadata.__from_dict__
(test_saving_metadata reconstructs the tag contents with it). -/
def FibsemImageMetadata.from_dict (d : FibsemImageMetadataDict) :
    Except String FibsemImageMetadata :=
  match ImageSettings.from_dict d.image_settings with
  | Except.error e => Except.error e
  | Except.ok is2 =>
      match MicroscopeState.from_dict d.microscope_state with
      | Except.error e => Except.error e
      | Except.ok ms =>
          Except.ok ⟨is2, d.version, Point.from_dict d.pixel_size, ms⟩

theorem metadata_from_to (m : FibsemImageMetadata) :
    FibsemImageMetadata.from_dict m.to_dict = Except.ok m := by
  cases m with
  | mk is2 ver ps ms =>
      unfold FibsemImageMetadata.from_dict FibsemImageMetadata.to_dict
      rw [image_settings_from_to, microscope_state_from_to]
      cases ps
      rfl

/-- A numpy array as consumed by the image container: an element type
tag, a shape, and the flat pixel data (pixel values as integers, the
arrays in the tests are uint8 or uint16). -/
structure NDArray where
  dtype : String
  shape : List ℕ
  pixels : List ℤ
deriving DecidableEq, Repr

/-- Modelled from the spec: the FibsemImage container binds a pixel array
to optional metadata (spec section 4.2). -/
structure FibsemImage where
  data : NDArray
  metadata : Option FibsemImageMetadata
deriving DecidableEq, Repr

/-- Modelled from the spec: construction-time validation fails with a
ValueError-kind error if the input array has more than 2 dimensions;
otherwise the array and metadata are stored (spec section 4.2 and
test_data_checks). -/
def FibsemImage.create (arr : NDArray) (md : Option FibsemImageMetadata) :
    Except String FibsemImage :=
  if 2 < arr.shape.length then
    Except.error "ValueError: image data must be at most 2D"
  else
    Except.ok ⟨arr, md⟩

/-- Modelled from the spec: a tagged image file holds the pixel array and,
when metadata was present, the serialized mapping embedded in the textual
description tag (spec sections 4.2 and 6; the JSON text encoding of the
mapping is owned by the json collaborator and is modelled as the mapping
itself). -/
structure TiffFile where
  data : NDArray
  image_description : Option FibsemImageMetadataDict
deriving DecidableEq, Repr

/-- Modelled from the spec: FibsemImage.save writes the pixel array and
embeds the serialized metadata mapping in the description tag
(spec section 4.2). -/
def FibsemImage.save (img : FibsemImage) : TiffFile :=
  ⟨img.data, img.metadata.map FibsemImageMetadata.to_dict⟩

/-- Modelled from the spec: FibsemImage.load reads the pixel array back
and, when a description tag is present, reconstructs the metadata via
__from_dict__; otherwise the metadata is unset (spec section 4.2). -/
def FibsemImage.load (t : TiffFile) : Except String FibsemImage :=
  match t.image_description with
  | none => Except.ok ⟨t.data, none⟩
  | some d =>
      match FibsemImageMetadata.from_dict d with
      | Except.error e => Except.error e
      | Except.ok m => Except.ok ⟨t.data, some m⟩

/-- Embedding of FibsemMovementUI.MovementMode. -/
inductive MovementMode
  | Stable
  | Eucentric
  | Needle
deriving DecidableEq, Repr

/-- Embedding of FibsemMovementUI.get_data_from_coord.  The composite
image has shape (H, W): H rows and W columns, the electron and ion images
concatenated along axis 1.  A napari data coordinate is (row, col) as a
pair of rationals.  In the source, eb_shape is (H, W floordiv 2) and
ib_shape is (H, W); the returned adorned image is the acquired eb_image
or ib_image, represented here by the beam that produced it.  Note that
the second branch compares the column coords 1 against eb_shape 0, the
image height. -/
def get_data_from_coord (H W : ℕ) (coords : ℚ × ℚ) :
    Option BeamType × Option BeamType × (ℚ × ℚ) :=
  let ebShape : ℕ × ℕ := (H, W / 2)
  let ibShape : ℕ × ℕ := (H, W)
  if (0 < coords.1 ∧ coords.1 < (ebShape.1 : ℚ)) ∧
      (0 < coords.2 ∧ coords.2 < (ebShape.2 : ℚ)) then
    (some BeamType.ELECTRON, some BeamType.ELECTRON, coords)
  else if (0 < coords.1 ∧ coords.1 < (ibShape.1 : ℚ)) ∧
      ((ebShape.1 : ℚ) < coords.2 ∧ coords.2 < (ibShape.2 : ℚ)) then
    (some BeamType.ION, some BeamType.ION,
     (coords.1, coords.2 - ((ibShape.2 / 2 : ℕ) : ℚ)))
  else
    (none, none, coords)

/-- The observable effects of a double click: the user notice, the two
stage move primitives of the movement collaborator, and the display
refresh. -/
inductive UIAction
  | notice
  | eucentric_move (dy : ℚ)
  | stable_move (dx : ℚ) (dy : ℚ) (beam : BeamType)
  | refresh
deriving DecidableEq, Repr

/-- The dialog state touched by the double click handler. -/
structure UIState where
  movement_mode : MovementMode
deriving DecidableEq, Repr

/-- Embedding of FibsemMovementUI.double_click for a click at data
coordinate coords on the (H, W) composite.  The collaborator
conversions.pixel_to_realspace_coordinate is the parameter p2r, applied
to (coords 1, coords 0) and the adorned image of the resolved beam.
comboMode is the mode currently selected in the movement mode combobox,
which the handler writes into self.movement_mode before dispatching. -/
def double_click (H W : ℕ) (p2r : ℚ × ℚ → BeamType → ℚ × ℚ)
    (comboMode : MovementMode) (coords : ℚ × ℚ) (st : UIState) :
    UIState × List UIAction :=
  match get_data_from_coord H W coords with
  | (none, _, _) => (st, [UIAction.notice])
  | (some beam, _, c) =>
      let dxy := p2r (c.2, c.1) beam
      let st2 : UIState := ⟨comboMode⟩
      if beam = BeamType.ION ∧ comboMode = MovementMode.Eucentric then
        (st2, [UIAction.eucentric_move (-dxy.2), UIAction.refresh])
      else
        (st2, [UIAction.stable_move dxy.1 dxy.2 beam, UIAction.refresh])

/-- A Python value as it appears in the tuple returned by
get_data_from_coord: the beam type, the adorned image (represented by
its beam), or a coordinate pair. -/
inductive PyObj
  | beamv (b : Option BeamType)
  | imgv (b : Option BeamType)
  | coordv (c : ℚ × ℚ)
deriving DecidableEq, Repr

/-- The value returned by get_data_from_coord as the Python 3-tuple
(beam_type, adorned_image, coords). -/
def get_data_from_coord_tuple (H W : ℕ) (coords : ℚ × ℚ) : List PyObj :=
  [PyObj.beamv (get_data_from_coord H W coords).1,
   PyObj.imgv (get_data_from_coord H W coords).2.1,
   PyObj.coordv (get_data_from_coord H W coords).2.2]

/-- Python tuple unpacking into exactly two names: any other arity raises
a ValueError. -/
def unpack2 (xs : List PyObj) : Except String (PyObj × PyObj) :=
  match xs with
  | [a, b] => Except.ok (a, b)
  | [] => Except.error "ValueError: not enough values to unpack"
  | [_] => Except.error "ValueError: not enough values to unpack"
  | _ => Except.error "ValueError: too many values to unpack"

/-- The record logged by the single click handler when it completes. -/
structure SingleClickLog where
  coords : ℚ × ℚ
  coord_type : String
  beam_type : Option BeamType
deriving DecidableEq, Repr

/-- Embedding of FibsemMovementUI singleClick: guarded on a mouse press
event in Needle mode; it unpacks the 3-tuple returned by
get_data_from_coord into the two names beam_type and adorned_image, then
logs the pick.  needle_coord is the current text of the needle
coordinate combobox. -/
def single_click (H W : ℕ) (event_type : String) (mode : MovementMode)
    (coords : ℚ × ℚ) (needle_coord : String) :
    Except String (Option SingleClickLog) :=
  if event_type = "mouse_press" ∧ mode = MovementMode.Needle then
    match unpack2 (get_data_from_coord_tuple H W coords) with
    | Except.error e => Except.error e
    | Except.ok (bv, _) =>
        Except.ok (some ⟨coords, needle_coord,
          match bv with
          | PyObj.beamv b => b
          | _ => none⟩)
  else
    Except.ok none

/-- Embedding of the msg_dict lookup in FibsemMovementUI.set_message:
the instruction message table keyed by msg_type; any other key, the
constructor default None included, is absent. -/
def msg_dict (key : Option String) : Option String :=
  if key = some "eucentric" then
    some "Please centre a feature in both Beam views (Double click to move). "
  else if key = some "alignment" then
    some "Please centre the lamella in the Ion Beam, and tilt so the lamella face is perpendicular to the Ion Beam."
  else none

/-- The instruction label written for the given mode and resolved
message: Eucentric mode overrides the text, Stable mode shows the
message, Needle mode writes nothing. -/
def message_label (mode : MovementMode) (m : String) : Option String :=
  if mode = MovementMode.Eucentric then
    some "Centre a feature in the Electron Beam, then double click the same feature in the Ion Beam."
  else if mode = MovementMode.Stable then
    some m
  else
    none

/-- Embedding of FibsemMovementUI.set_message: when msg is None the
message is looked up in msg_dict by msg_type, and a missing key raises a
KeyError; the result is the text written to the message label, none when
no branch writes it. -/
def set_message (mode : MovementMode) (msg_type : Option String)
    (msg : Option String) : Except String (Option String) :=
  match msg with
  | none =>
      match msg_dict msg_type with
      | none => Except.error "KeyError"
      | some m => Except.ok (message_label mode m)
  | some m => Except.ok (message_label mode m)

/-- The dialog state established by a successful construction. -/
structure InitResult where
  movement_mode : MovementMode
  tilt_movement_enabled : Bool
  label_message : Option String
deriving DecidableEq, Repr

/-- Embedding of the FibsemMovementUI constructor tail: the movement mode
starts Stable, tilt movement is enabled exactly when msg_type is
alignment, and set_message runs on the constructor arguments; a KeyError
raised there propagates out of the constructor. -/
def fibsem_movement_ui_init (msg_type msg : Option String) :
    Except String InitResult :=
  let tilt := msg_type = some "alignment"
  match set_message MovementMode.Stable msg_type msg with
  | Except.error e => Except.error e
  | Except.ok lbl => Except.ok ⟨MovementMode.Stable, decide tilt, lbl⟩

/-- Embedding of autoscript MoveSettings as constructed by stage_tilt. -/
structure MoveSettings where
  rotate_compucentric : Bool
  tilt_compucentric : Bool
deriving DecidableEq, Repr

/-- The observable effects of the tilt action: the absolute stage move
(with the tilt axis value of the target StagePosition and its
MoveSettings) and the display refresh. -/
inductive TiltAction
  | absolute_move (t : ℚ) (settings : MoveSettings)
  | refresh
deriving DecidableEq, Repr

/-- Embedding of the tilt spinbox: Qt constrains the held value to the
configured range, setMinimum 0 and setMaximum 25. -/
def doubleSpinBox_tilt_value (v : ℚ) : ℚ := max 0 (min v 25)

/-- Embedding of FibsemMovementUI.stage_tilt: reads the spinbox value in
degrees, converts with np.deg2rad, issues one absolute move with
rotate_compucentric and tilt_compucentric both true, then refreshes. -/
def stage_tilt (v : ℚ) : List TiltAction :=
  [TiltAction.absolute_move (deg2rad (doubleSpinBox_tilt_value v)) ⟨true, true⟩,
   TiltAction.refresh]

/-- Embedding of the gating in setup_connections: the tilt button is
connected to stage_tilt exactly when tilt_movement_enabled holds. -/
def tilt_button_connected (tilt_movement_enabled : Bool) : Bool :=
  tilt_movement_enabled

/-- Claim C1: the claim states that every coordinate strictly inside the
right half of a WxH composite resolves to ION with W/2 subtracted from
the column, and in particular that a click at (10, 50) on a 64x64
composite resolves to ION with local coordinate (10, 18).  The code
instead compares the column against eb_shape index 0, the image height,
so on the 64x64 composite the ION branch demands 64 < column < 64 and
the click at (10, 50) resolves to no beam; the left-half and
out-of-bounds parts of the claim behave as stated. -/
theorem c1_get_data_from_coord_ion_branch_bug :
    get_data_from_coord 64 64 (10, 50) = (none, none, (10, 50)) ∧
    get_data_from_coord 64 64 (10, 10) =
      (some BeamType.ELECTRON, some BeamType.ELECTRON, (10, 10)) ∧
    get_data_from_coord 64 64 (70, 10) = (none, none, (70, 10)) := by
  decide

/-- Claim C2: on a confirmed double click that resolves to a beam, the
handler issues the eucentric correction move with exactly the negated
vertical displacement if and only if the beam is ION and the selected
mode is Eucentric; in every other resolved case it issues the stable
corrected relative move with both components and the resolved beam. -/
theorem c2_double_click_dispatch (H W : ℕ) (p2r : ℚ × ℚ → BeamType → ℚ × ℚ)
    (mode : MovementMode) (st : UIState) (c : ℚ × ℚ) (beam : BeamType)
    (img : Option BeamType) (c2 : ℚ × ℚ)
    (h : get_data_from_coord H W c = (some beam, img, c2)) :
    (beam = BeamType.ION ∧ mode = MovementMode.Eucentric →
      double_click H W p2r mode c st =
        (⟨mode⟩, [UIAction.eucentric_move (-(p2r (c2.2, c2.1) beam).2),
                  UIAction.refresh])) ∧
    (¬(beam = BeamType.ION ∧ mode = MovementMode.Eucentric) →
      double_click H W p2r mode c st =
        (⟨mode⟩, [UIAction.stable_move (p2r (c2.2, c2.1) beam).1
                    (p2r (c2.2, c2.1) beam).2 beam,
                  UIAction.refresh])) := by
  constructor
  · rintro ⟨hb, hm⟩
    subst hb
    subst hm
    simp [double_click, h]
  · intro hn
    simp [double_click, h, hn]

theorem c2_double_click_dispatch_witness :
    double_click 10 64 (fun p _ => p) MovementMode.Eucentric (5, 40)
        ⟨MovementMode.Stable⟩ =
      (⟨MovementMode.Eucentric⟩,
       [UIAction.eucentric_move (-5), UIAction.refresh]) :=
  (c2_double_click_dispatch 10 64 (fun p _ => p) MovementMode.Eucentric
      ⟨MovementMode.Stable⟩ (5, 40) BeamType.ION (some BeamType.ION) (5, 8)
      (by norm_num [get_data_from_coord])).1 ⟨rfl, rfl⟩

/-- Claim C5: a double click whose coordinate resolves to no beam only
issues the user notice: the handler returns with the dialog state
unchanged, no stage move, no refresh, and no exception. -/
theorem c5_double_click_outside_noop (H W : ℕ) (p2r : ℚ × ℚ → BeamType → ℚ × ℚ)
    (mode : MovementMode) (st : UIState) (c : ℚ × ℚ)
    (h : (get_data_from_coord H W c).1 = none) :
    double_click H W p2r mode c st = (st, [UIAction.notice]) := by
  rcases hg : get_data_from_coord H W c with ⟨b, i, c2⟩
  rw [hg] at h
  simp only [Prod.fst] at h
  subst h
  simp [double_click, hg]

theorem c5_double_click_outside_noop_witness :
    double_click 64 64 (fun p _ => p) MovementMode.Stable (70, 10)
        ⟨MovementMode.Stable⟩ =
      (⟨MovementMode.Stable⟩, [UIAction.notice]) :=
  c5_double_click_outside_noop 64 64 (fun p _ => p) MovementMode.Stable
    ⟨MovementMode.Stable⟩ (70, 10) (by decide)

/-- Claim C9: a click whose row or column equals 0 resolves to no beam on
every composite image: the ELECTRON test demands both coordinates
strictly positive, and the ION test demands the column strictly above
the image height, which is never below zero. -/
theorem c9_zero_row_or_col_no_beam (H W : ℕ) (c : ℚ × ℚ)
    (h : c.1 = 0 ∨ c.2 = 0) :
    (get_data_from_coord H W c).1 = none := by
  rcases h with h | h
  · simp [get_data_from_coord, h]
  · simp [get_data_from_coord, h, (Nat.cast_nonneg (α := ℚ) H).not_lt]

theorem c9_zero_row_or_col_no_beam_witness :
    (get_data_from_coord 64 64 (0, 5)).1 = none ∧
    (get_data_from_coord 64 64 (5, 0)).1 = none :=
  ⟨c9_zero_row_or_col_no_beam 64 64 (0, 5) (Or.inl rfl),
   c9_zero_row_or_col_no_beam 64 64 (5, 0) (Or.inr rfl)⟩

/-- Claim C7: the claim states that in Needle mode a mouse press resolves
the beam type and coordinate role and records the pick with no other
side effect.  The handler is indeed guarded on Needle mode and a mouse
press, but get_data_from_coord returns a 3-tuple and the handler unpacks
it into two names, so every handled single click raises a ValueError
before anything is logged; outside the guard nothing happens. -/
theorem c7_single_click_unpack_valueerror :
    single_click 64 64 "mouse_press" MovementMode.Needle (10, 10) "Source" =
      Except.error "ValueError: too many values to unpack" ∧
    (∀ (H W : ℕ) (c : ℚ × ℚ) (s : String),
      single_click H W "mouse_press" MovementMode.Stable c s = Except.ok none) ∧
    (∀ (H W : ℕ) (c : ℚ × ℚ) (s : String),
      single_click H W "mouse_press" MovementMode.Eucentric c s = Except.ok none) ∧
    (∀ (H W : ℕ) (c : ℚ × ℚ) (s : String),
      single_click H W "mouse_move" MovementMode.Needle c s = Except.ok none) := by
  refine ⟨rfl, ?_, ?_, ?_⟩
  · intro H W c s
    simp [single_click]
  · intro H W c s
    simp [single_click]
  · intro H W c s
    have hne : ¬("mouse_move" = "mouse_press" ∧
        MovementMode.Needle = MovementMode.Needle) := by
      intro hc
      exact absurd hc.1 (by decide)
    simp [single_click, hne]

/-- Claim C10: set_message with msg None and a msg_type outside the
instruction table, the constructor defaults included, raises a KeyError
from the msg_dict lookup, so constructing the dialog with the default
arguments fails rather than showing a blank message. -/
theorem c10_set_message_keyerror (mode : MovementMode) (t : Option String)
    (h1 : t ≠ some "eucentric") (h2 : t ≠ some "alignment") :
    set_message mode t none = Except.error "KeyError" ∧
    fibsem_movement_ui_init none none = Except.error "KeyError" := by
  have hd : msg_dict t = none := by
    unfold msg_dict
    rw [if_neg h1, if_neg h2]
  exact ⟨by simp [set_message, hd], rfl⟩

theorem c10_set_message_keyerror_witness :
    set_message MovementMode.Stable none none = Except.error "KeyError" ∧
    fibsem_movement_ui_init none none = Except.error "KeyError" :=
  c10_set_message_keyerror MovementMode.Stable none (by decide) (by decide)

/-- Claim C8: the tilt spinbox value is clamped to the range 0 to 25
degrees; triggering the tilt action converts the value to radians and
issues exactly one absolute stage move whose MoveSettings has both the
rotate compucentric and tilt compucentric flags enabled, followed by the
display refresh; the button is connected exactly when the tilt
sub-feature is enabled. -/
theorem c8_stage_tilt_spec (v : ℚ) :
    0 ≤ doubleSpinBox_tilt_value v ∧ doubleSpinBox_tilt_value v ≤ 25 ∧
    stage_tilt v =
      [TiltAction.absolute_move (deg2rad (doubleSpinBox_tilt_value v))
        ⟨true, true⟩,
       TiltAction.refresh] ∧
    (∀ b : Bool, tilt_button_connected b = b) := by
  refine ⟨le_max_left 0 _, ?_, rfl, fun b => rfl⟩
  unfold doubleSpinBox_tilt_value
  exact max_le (by norm_num) (min_le_right v 25)

/-- Claim C3: for every supported settings record the serialization round
trip is the identity, field by field; for MillingSettings the serialized
rotation entry is the in-memory radians expressed in degrees and the
stored field is deg2rad of the serialized entry, so in exact arithmetic
its round trip is the identity as well. -/
theorem c3_settings_roundtrip :
    (∀ g : GammaSettings, GammaSettings.from_dict g.to_dict = g) ∧
    (∀ r : FibsemRectangle, FibsemRectangle.from_dict r.to_dict = r) ∧
    (∀ p : StagePosition, StagePosition.from_dict p.to_dict = p) ∧
    (∀ b : BeamSettings, BeamSettings.from_dict b.to_dict = Except.ok b) ∧
    (∀ s : MicroscopeState, MicroscopeState.from_dict s.to_dict = Except.ok s) ∧
    (∀ i : ImageSettings, ImageSettings.from_dict i.to_dict = Except.ok i) ∧
    (∀ m : MillingSettings,
      MillingSettings.from_dict m.to_dict = m ∧
      m.to_dict.rotation = rad2deg m.rotation ∧
      m.rotation = deg2rad m.to_dict.rotation) := by
  refine ⟨fun g => rfl, fun r => rfl, fun p => rfl, beam_settings_from_to,
    microscope_state_from_to, image_settings_from_to,
    fun m => ⟨milling_settings_from_to m, rfl, ?_⟩⟩
  exact (deg2rad_rad2deg m.rotation).symm

/-- Claim C4: for every pixel array of at most two dimensions and every
optional metadata record, building the image succeeds and saving then
loading reproduces the array exactly, dtype and shape included, and a
metadata record structurally equal to the original, unset when it was
absent. -/
theorem c4_image_save_load_roundtrip (a : NDArray)
    (md : Option FibsemImageMetadata) (h : a.shape.length ≤ 2) :
    FibsemImage.create a md = Except.ok ⟨a, md⟩ ∧
    FibsemImage.load (FibsemImage.save ⟨a, md⟩) = Except.ok ⟨a, md⟩ := by
  constructor
  · unfold FibsemImage.create
    rw [if_neg (by omega)]
  · cases md with
    | none => rfl
    | some m => simp [FibsemImage.save, FibsemImage.load, metadata_from_to]

def sample_gamma : GammaSettings := ⟨true, 1/2, 9/5, 1/100, 46⟩

def sample_beam (bt : BeamType) : BeamSettings :=
  ⟨bt, 1/250, 3/50000000000, 3/20000, "1536x1024", 1/1000000, 1/1000000⟩

def sample_metadata : FibsemImageMetadata :=
  ⟨⟨"32x32", 1/1000000, 3/20000, true, BeamType.ELECTRON, sample_gamma,
    false, some "path", "label", some ⟨0, 0, 1, 1⟩⟩,
   "v1", ⟨0, 0⟩,
   ⟨0, ⟨0, 0, 0, 0, 0, "Raw"⟩, sample_beam BeamType.ELECTRON,
    sample_beam BeamType.ION⟩⟩

def sample_array : NDArray := ⟨"uint8", [32, 32], [255, 0, 17]⟩

theorem c4_image_save_load_roundtrip_witness :
    FibsemImage.create sample_array (some sample_metadata) =
      Except.ok ⟨sample_array, some sample_metadata⟩ ∧
    FibsemImage.load (FibsemImage.save ⟨sample_array, some sample_metadata⟩) =
      Except.ok ⟨sample_array, some sample_metadata⟩ :=
  c4_image_save_load_roundtrip sample_array (some sample_metadata) (by decide)

/-- Claim C6: constructing the image container from an array with more
than two dimensions fails with the ValueError-kind error, and
constructing it from any 2-D array always succeeds. -/
theorem c6_image_dimension_checks :
    (∀ (a : NDArray) (md : Option FibsemImageMetadata), 2 < a.shape.length →
      FibsemImage.create a md =
        Except.error "ValueError: image data must be at most 2D") ∧
    (∀ (a : NDArray) (md : Option FibsemImageMetadata), a.shape.length = 2 →
      FibsemImage.create a md = Except.ok ⟨a, md⟩) := by
  constructor
  · intro a md h
    unfold FibsemImage.create
    rw [if_pos h]
  · intro a md h
    unfold FibsemImage.create
    rw [if_neg (by omega)]

theorem c6_image_dimension_checks_witness :
    FibsemImage.create ⟨"uint16", [32, 32, 32], []⟩ none =
      Except.error "ValueError: image data must be at most 2D" ∧
    FibsemImage.create ⟨"uint8", [32, 32], []⟩ none =
      Except.ok ⟨⟨"uint8", [32, 32], []⟩, none⟩ :=
  ⟨c6_image_dimension_checks.1 ⟨"uint16", [32, 32, 32], []⟩ none (by decide),
   c6_image_dimension_checks.2 ⟨"uint8", [32, 32], []⟩ none rfl⟩
